import Mathlib

/-!
Shallow embedding of `src/lib/workflow-generation-state.ts`: the guarded
finite-state machine driving workflow generation.  Class-based stateful
TypeScript is modelled by explicit state passing: every method of
`WorkflowGenerationStateManager` becomes a pure function taking the
`ExecutionState` (and, where the source reads the clock, an explicit
`now : String` standing for `new Date().toISOString()`) and returning the
updated state together with the return value of the source.
-/

namespace WorkflowGen

/-- The `WorkflowGenerationState` enum of the source (9 states). -/
inductive WorkflowGenerationState
  | STATE_0_IDLE
  | STATE_1_USER_PROMPT_RECEIVED
  | STATE_2_CLARIFICATION_ACTIVE
  | STATE_3_UNDERSTANDING_CONFIRMED
  | STATE_4_CREDENTIAL_COLLECTION
  | STATE_5_WORKFLOW_BUILDING
  | STATE_6_WORKFLOW_VALIDATION
  | STATE_7_WORKFLOW_READY
  | STATE_ERROR_HANDLING
deriving DecidableEq, Repr

open WorkflowGenerationState

/-- The string value each enum member carries in the source. -/
def stateName : WorkflowGenerationState → String
  | STATE_0_IDLE => "STATE_0_IDLE"
  | STATE_1_USER_PROMPT_RECEIVED => "STATE_1_USER_PROMPT_RECEIVED"
  | STATE_2_CLARIFICATION_ACTIVE => "STATE_2_CLARIFICATION_ACTIVE"
  | STATE_3_UNDERSTANDING_CONFIRMED => "STATE_3_UNDERSTANDING_CONFIRMED"
  | STATE_4_CREDENTIAL_COLLECTION => "STATE_4_CREDENTIAL_COLLECTION"
  | STATE_5_WORKFLOW_BUILDING => "STATE_5_WORKFLOW_BUILDING"
  | STATE_6_WORKFLOW_VALIDATION => "STATE_6_WORKFLOW_VALIDATION"
  | STATE_7_WORKFLOW_READY => "STATE_7_WORKFLOW_READY"
  | STATE_ERROR_HANDLING => "STATE_ERROR_HANDLING"

/-- `ALLOWED_TRANSITIONS` table, transcribed line by line from the source. -/
def ALLOWED_TRANSITIONS : WorkflowGenerationState → List WorkflowGenerationState
  | STATE_0_IDLE => [STATE_1_USER_PROMPT_RECEIVED]
  | STATE_1_USER_PROMPT_RECEIVED => [STATE_2_CLARIFICATION_ACTIVE]
  | STATE_2_CLARIFICATION_ACTIVE =>
      [STATE_3_UNDERSTANDING_CONFIRMED,
       STATE_2_CLARIFICATION_ACTIVE]
  | STATE_3_UNDERSTANDING_CONFIRMED =>
      [STATE_4_CREDENTIAL_COLLECTION,
       STATE_2_CLARIFICATION_ACTIVE,
       STATE_5_WORKFLOW_BUILDING]
  | STATE_4_CREDENTIAL_COLLECTION => [STATE_5_WORKFLOW_BUILDING]
  | STATE_5_WORKFLOW_BUILDING =>
      [STATE_6_WORKFLOW_VALIDATION,
       STATE_4_CREDENTIAL_COLLECTION]
  | STATE_6_WORKFLOW_VALIDATION =>
      [STATE_7_WORKFLOW_READY,
       STATE_5_WORKFLOW_BUILDING,
       STATE_ERROR_HANDLING]
  | STATE_7_WORKFLOW_READY => []
  | STATE_ERROR_HANDLING =>
      [STATE_2_CLARIFICATION_ACTIVE,
       STATE_0_IDLE]

/-- Entry of `state_history`: `{ state, timestamp, reason? }`. -/
structure HistoryEntry where
  state : WorkflowGenerationState
  timestamp : String
  reason : Option String
deriving DecidableEq, Repr

/-- A clarifying question `{ id, text, options }`. -/
structure ClarifyingQuestion where
  id : String
  text : String
  options : List String
deriving DecidableEq, Repr

/-- A validation error `{ type, message, nodeId? }`. -/
structure ValidationError where
  type : String
  message : String
  nodeId : Option String
deriving DecidableEq, Repr

/-- The `workflow_blueprint` record `{ nodes?, edges?, structure? }`.
The FSM never inspects the contents of nodes/edges/structure (only the
presence and length of `nodes`), so the `any` payloads are modelled as
strings. -/
structure Blueprint where
  nodes : Option (List String)
  edges : Option (List String)
  structure_ : Option String
deriving DecidableEq, Repr

/-- The empty object literal `{}` assigned to `workflow_blueprint`. -/
def Blueprint.empty : Blueprint := ⟨none, none, none⟩

/-- The `ExecutionState` interface (with the `debugMode` of the manager folded
into the `debug_mode` field it mirrors). -/
structure ExecutionState where
  current_state : WorkflowGenerationState
  user_prompt : String
  clarifying_questions : List ClarifyingQuestion
  clarifying_answers : List (String × String)
  final_understanding : String
  credentials_required : List String
  credentials_provided : List (String × String)
  workflow_blueprint : Blueprint
  validation_errors : List ValidationError
  retry_count : Nat
  last_error : Option String
  debug_mode : Bool
  state_history : List HistoryEntry
deriving DecidableEq, Repr

/-- Return value `{ success, error? }` of the guarded operations. -/
structure OpResult where
  success : Bool
  error : Option String
deriving DecidableEq, Repr

/-- Return value `{ valid, reason? }` of `canTransitionTo`. -/
structure TransitionCheck where
  valid : Bool
  reason : Option String
deriving DecidableEq, Repr

/-- JavaScript `x || d` on an optional string (both `undefined` and the
empty string are falsy). -/
def jsOr (x : Option String) (d : String) : String :=
  match x with
  | some v => if v = "" then d else v
  | none => d

/-- JavaScript truthiness of `record[key]` for a string-valued record:
true iff the key is present with a non-empty value. -/
def jsTruthy (m : List (String × String)) (k : String) : Bool :=
  match m.lookup k with
  | some v => v != ""
  | none => false

/-- `initializeState()` (the `timestamp` of the initial history entry is
the explicit `now`). -/
def initializeState (debugMode : Bool) (now : String) : ExecutionState :=
  { current_state := STATE_0_IDLE
    user_prompt := ""
    clarifying_questions := []
    clarifying_answers := []
    final_understanding := ""
    credentials_required := []
    credentials_provided := []
    workflow_blueprint := Blueprint.empty
    validation_errors := []
    retry_count := 0
    last_error := none
    debug_mode := debugMode
    state_history := [{ state := STATE_0_IDLE, timestamp := now, reason := some "Initialized" }] }

/-- `canTransitionTo(newState)`. -/
def canTransitionTo (s : ExecutionState) (newState : WorkflowGenerationState) : TransitionCheck :=
  let allowedStates := ALLOWED_TRANSITIONS s.current_state
  if newState ∈ allowedStates then
    { valid := true, reason := none }
  else
    { valid := false
      reason := some ("Invalid transition from " ++ stateName s.current_state ++ " to "
        ++ stateName newState ++ ". Allowed states: "
        ++ String.intercalate ", " (allowedStates.map stateName)) }

/-- `transitionTo(newState, reason)`. -/
def transitionTo (s : ExecutionState) (newState : WorkflowGenerationState)
    (reason : Option String) (now : String) : OpResult × ExecutionState :=
  let validation := canTransitionTo s newState
  if validation.valid = false then
    ({ success := false, error := some (jsOr validation.reason "Invalid state transition") }, s)
  else
    ({ success := true, error := none },
     { s with
        state_history := s.state_history
          ++ [{ state := newState, timestamp := now, reason := some (jsOr reason "State transition") }]
        current_state := newState })

/-- `setUserPrompt(prompt)`: throws outside IDLE (modelled with `Except`),
otherwise writes `user_prompt` and transitions. -/
def setUserPrompt (s : ExecutionState) (prompt : String) (now : String) :
    Except String ExecutionState :=
  if s.current_state ≠ STATE_0_IDLE then
    Except.error "Can only set user prompt from IDLE state"
  else
    Except.ok (transitionTo { s with user_prompt := prompt }
      STATE_1_USER_PROMPT_RECEIVED (some "User prompt received") now).2

/-- `setClarifyingQuestions(questions)`. -/
def setClarifyingQuestions (s : ExecutionState) (questions : List ClarifyingQuestion)
    (now : String) : ExecutionState :=
  let s1 := { s with clarifying_questions := questions }
  if s1.current_state = STATE_1_USER_PROMPT_RECEIVED then
    (transitionTo s1 STATE_2_CLARIFICATION_ACTIVE (some "Clarifying questions generated") now).2
  else s1

/-- `setClarifyingAnswers(answers)`: plain assignment of the whole record. -/
def setClarifyingAnswers (s : ExecutionState) (answers : List (String × String)) :
    ExecutionState :=
  { s with clarifying_answers := answers }

/-- `confirmUnderstanding(finalUnderstanding)`. -/
def confirmUnderstanding (s : ExecutionState) (finalUnderstanding : String) (now : String) :
    OpResult × ExecutionState :=
  if s.current_state ≠ STATE_2_CLARIFICATION_ACTIVE then
    ({ success := false,
       error := some "Can only confirm understanding from CLARIFICATION_ACTIVE state" }, s)
  else
    transitionTo { s with final_understanding := finalUnderstanding }
      STATE_3_UNDERSTANDING_CONFIRMED (some "Understanding confirmed by user") now

/-- `setRequiredCredentials(credentials)`. -/
def setRequiredCredentials (s : ExecutionState) (credentials : List String) (now : String) :
    ExecutionState :=
  let s1 := { s with credentials_required := credentials }
  if s1.current_state = STATE_3_UNDERSTANDING_CONFIRMED then
    (transitionTo s1 STATE_4_CREDENTIAL_COLLECTION (some "Credentials required identified") now).2
  else if s1.current_state = STATE_5_WORKFLOW_BUILDING then
    (transitionTo s1 STATE_4_CREDENTIAL_COLLECTION
      (some "Credentials required detected during building") now).2
  else s1

/-- `setProvidedCredentials(credentials)`. -/
def setProvidedCredentials (s : ExecutionState) (credentials : List (String × String)) :
    ExecutionState :=
  { s with credentials_provided := credentials }

/-- JavaScript `toLowerCase()`, modelled per character (structural
recursion over the character list, so it evaluates by reduction). -/
def jsToLowerCase (s : String) : String :=
  ⟨s.data.map Char.toLower⟩

/-- The predicate of the `missingCredentials` filter in the source: credential
`cred` is missing when neither `credentials_provided[cred]` nor
`credentials_provided` under the lower-cased (and underscore-replaced, a no-op) name is truthy
(the replace is the identity). -/
def credMissing (provided : List (String × String)) (cred : String) : Bool :=
  !(jsTruthy provided cred) && !(jsTruthy provided (jsToLowerCase cred))

/-- `startBuilding()`. -/
def startBuilding (s : ExecutionState) (now : String) : OpResult × ExecutionState :=
  let afterGuard1 : Option (OpResult × ExecutionState) :=
    if s.credentials_required.length > 0 then
      let missingCredentials := s.credentials_required.filter (credMissing s.credentials_provided)
      if missingCredentials.length > 0 then
        some ({ success := false,
                error := some ("Cannot build workflow: Missing required credentials: "
                  ++ String.intercalate ", " missingCredentials) }, s)
      else none
    else none
  match afterGuard1 with
  | some r => r
  | none =>
    if s.final_understanding = "" then
      ({ success := false, error := some "Cannot build workflow: Understanding not confirmed" }, s)
    else
      transitionTo s STATE_5_WORKFLOW_BUILDING (some "Workflow building started") now

/-- `setWorkflowBlueprint(blueprint)`. -/
def setWorkflowBlueprint (s : ExecutionState) (blueprint : Blueprint) (now : String) :
    ExecutionState :=
  (transitionTo { s with workflow_blueprint := blueprint }
    STATE_6_WORKFLOW_VALIDATION (some "Workflow blueprint generated") now).2

/-- `addValidationError(error)`. -/
def addValidationError (s : ExecutionState) (error : ValidationError) : ExecutionState :=
  { s with validation_errors := s.validation_errors ++ [error] }

/-- `clearValidationErrors()`. -/
def clearValidationErrors (s : ExecutionState) : ExecutionState :=
  { s with validation_errors := [] }

/-- `retryBuilding()`. -/
def retryBuilding (s : ExecutionState) (now : String) : OpResult × ExecutionState :=
  if s.retry_count ≥ 3 then
    ({ success := false,
       error := some "Maximum retry count (3) reached. Moving to error handling." }, s)
  else
    transitionTo
      (clearValidationErrors
        { s with retry_count := s.retry_count + 1, workflow_blueprint := Blueprint.empty })
      STATE_5_WORKFLOW_BUILDING
      (some ("Retry " ++ toString (s.retry_count + 1) ++ "/3")) now

/-- `markWorkflowReady()`. -/
def markWorkflowReady (s : ExecutionState) (now : String) : OpResult × ExecutionState :=
  if s.validation_errors.length > 0 then
    ({ success := false,
       error := some ("Cannot mark workflow as ready: "
         ++ toString s.validation_errors.length ++ " validation errors remain") }, s)
  else if s.workflow_blueprint.nodes.getD [] = [] then
    ({ success := false, error := some "Cannot mark workflow as ready: No workflow blueprint" }, s)
  else
    transitionTo s STATE_7_WORKFLOW_READY (some "Workflow validated and ready") now

/-- `handleError(error)`: writes `last_error`, then attempts the transition
to error handling (the returned result is discarded by the source). -/
def handleError (s : ExecutionState) (error : String) (now : String) : ExecutionState :=
  (transitionTo { s with last_error := some error }
    STATE_ERROR_HANDLING (some ("Error: " ++ error)) now).2

/-- `reset()`: full reinitialization (the `debugMode` of the manager is mirrored
by `debug_mode`, which nothing mutates). -/
def reset (s : ExecutionState) (now : String) : ExecutionState :=
  initializeState s.debug_mode now

/-- `isTerminalState()`. -/
def isTerminalState (s : ExecutionState) : Bool :=
  s.current_state = STATE_7_WORKFLOW_READY || s.current_state = STATE_ERROR_HANDLING

/-- `mapWizardStepToState(step)`: record lookup with `|| STATE_0_IDLE`
default (every mapped value is a non-empty string, hence truthy, so the
default fires exactly on unmapped keys). -/
def mapWizardStepToState (step : String) : WorkflowGenerationState :=
  if step = "idle" then STATE_0_IDLE
  else if step = "analyzing" then STATE_1_USER_PROMPT_RECEIVED
  else if step = "questioning" then STATE_2_CLARIFICATION_ACTIVE
  else if step = "refining" then STATE_2_CLARIFICATION_ACTIVE
  else if step = "confirmation" then STATE_3_UNDERSTANDING_CONFIRMED
  else if step = "credentials" then STATE_4_CREDENTIAL_COLLECTION
  else if step = "building" then STATE_5_WORKFLOW_BUILDING
  else if step = "complete" then STATE_7_WORKFLOW_READY
  else STATE_0_IDLE

/-- `mapStateToWizardStep(state)` (the fallback default to idle is dead: the
record is total over the enum). -/
def mapStateToWizardStep : WorkflowGenerationState → String
  | STATE_0_IDLE => "idle"
  | STATE_1_USER_PROMPT_RECEIVED => "analyzing"
  | STATE_2_CLARIFICATION_ACTIVE => "questioning"
  | STATE_3_UNDERSTANDING_CONFIRMED => "confirmation"
  | STATE_4_CREDENTIAL_COLLECTION => "credentials"
  | STATE_5_WORKFLOW_BUILDING => "building"
  | STATE_6_WORKFLOW_VALIDATION => "building"
  | STATE_7_WORKFLOW_READY => "complete"
  | STATE_ERROR_HANDLING => "idle"

/-! ### Helper lemmas -/

/-- `canTransitionTo` is valid exactly on table membership. -/
theorem canTransitionTo_valid_eq (s : ExecutionState) (t : WorkflowGenerationState) :
    (canTransitionTo s t).valid = decide (t ∈ ALLOWED_TRANSITIONS s.current_state) := by
  unfold canTransitionTo
  by_cases h : t ∈ ALLOWED_TRANSITIONS s.current_state <;> simp [h]

/-- `transitionTo` on an allowed target: success, one appended entry, new state. -/
theorem transitionTo_of_mem (s : ExecutionState) (t : WorkflowGenerationState)
    (r : Option String) (now : String) (h : t ∈ ALLOWED_TRANSITIONS s.current_state) :
    transitionTo s t r now =
      ({ success := true, error := none },
       { s with
          current_state := t
          state_history := s.state_history
            ++ [{ state := t, timestamp := now, reason := some (jsOr r "State transition") }] }) := by
  unfold transitionTo canTransitionTo
  simp [h]

/-- `transitionTo` on a disallowed target: failure carrying a message, state
returned untouched. -/
theorem transitionTo_of_not_mem (s : ExecutionState) (t : WorkflowGenerationState)
    (r : Option String) (now : String) (h : t ∉ ALLOWED_TRANSITIONS s.current_state) :
    (transitionTo s t r now).1.success = false ∧
    ((transitionTo s t r now).1.error).isSome = true ∧
    (transitionTo s t r now).2 = s := by
  unfold transitionTo canTransitionTo
  simp [h]

/-! ### Claims -/

/-- C1. The spec (and the doc comment of the method itself) say `handleError` moves
any of the 8 non-error states to ErrorHandling, appending one history entry.
The code routes `handleError` through the table-checked `transitionTo`, and
`STATE_ERROR_HANDLING` is a listed successor only of
`STATE_6_WORKFLOW_VALIDATION`: from Idle the error is recorded but the
machine stays in Idle with no new history entry, while from
WorkflowValidation the documented move does happen. -/
theorem handleError_blocked_outside_validation :
    (handleError (initializeState false "t0") "boom" "t1").current_state = STATE_0_IDLE ∧
    (handleError (initializeState false "t0") "boom" "t1").state_history
      = (initializeState false "t0").state_history ∧
    (handleError (initializeState false "t0") "boom" "t1").last_error = some "boom" ∧
    (handleError { initializeState false "t0" with
        current_state := STATE_6_WORKFLOW_VALIDATION } "boom" "t1").current_state
      = STATE_ERROR_HANDLING := by
  refine ⟨rfl, rfl, rfl, rfl⟩

/-- C7 counterexample. `setClarifyingAnswers` assigns the whole record: a
second round that does not mention `q1` drops the earlier `q1` binding, so
answers do not accumulate. -/
theorem setClarifyingAnswers_drops_earlier_round :
    ((setClarifyingAnswers (initializeState false "t0")
        [("q1", "a")]).clarifying_answers.lookup "q1" = some "a") ∧
    ((setClarifyingAnswers (setClarifyingAnswers (initializeState false "t0") [("q1", "a")])
        [("q2", "b")]).clarifying_answers.lookup "q1" = none) := by
  refine ⟨rfl, rfl⟩

/-- C7 amended. `setClarifyingAnswers` replaces the whole `clarifying_answers`
mapping with its argument (bindings absent from the argument are dropped),
and it never changes `current_state` or `state_history`. -/
theorem setClarifyingAnswers_replaces_and_never_transitions
    (s : ExecutionState) (answers : List (String × String)) :
    (setClarifyingAnswers s answers).clarifying_answers = answers ∧
    (setClarifyingAnswers s answers).current_state = s.current_state ∧
    (setClarifyingAnswers s answers).state_history = s.state_history := by
  exact ⟨rfl, rfl, rfl⟩

/-- C9. The wizard-step round trip is the identity on idle/building/complete,
both questioning and refining normalize to questioning, WorkflowValidation
and WorkflowBuilding both map externally to building, and ErrorHandling maps
to idle. -/
theorem wizard_mapping_roundtrip :
    mapStateToWizardStep (mapWizardStepToState "idle") = "idle" ∧
    mapStateToWizardStep (mapWizardStepToState "building") = "building" ∧
    mapStateToWizardStep (mapWizardStepToState "complete") = "complete" ∧
    mapStateToWizardStep (mapWizardStepToState "questioning") = "questioning" ∧
    mapStateToWizardStep (mapWizardStepToState "refining") = "questioning" ∧
    mapStateToWizardStep STATE_6_WORKFLOW_VALIDATION = "building" ∧
    mapStateToWizardStep STATE_5_WORKFLOW_BUILDING = "building" ∧
    mapStateToWizardStep STATE_ERROR_HANDLING = "idle" := by
  refine ⟨rfl, rfl, rfl, rfl, rfl, rfl, rfl, rfl⟩

/-- C10. `mapWizardStepToState` is total: any string outside the eight
documented wizard steps falls through to the `|| STATE_0_IDLE` default. -/
theorem mapWizardStepToState_default (step : String)
    (h : step ∉ ["idle", "analyzing", "questioning", "refining", "confirmation",
      "credentials", "building", "complete"]) :
    mapWizardStepToState step = STATE_0_IDLE := by
  simp only [List.mem_cons, List.mem_singleton, not_or] at h
  obtain ⟨h1, h2, h3, h4, h5, h6, h7, h8⟩ := h
  simp [mapWizardStepToState, h1, h2, h3, h4, h5, h6, h7, h8]

/-- C10 witness: the unrecognized step "bogus" maps to Idle. -/
theorem mapWizardStepToState_default_witness :
    mapWizardStepToState "bogus" = STATE_0_IDLE :=
  mapWizardStepToState_default "bogus" (by decide)

/-- Appending one entry to a non-empty history preserves its first entry. -/
theorem head_append_singleton {α : Type} (l : List α) (e : α) (h : l ≠ []) :
    (l ++ [e]).head? = l.head? := by
  cases l with
  | nil => exact absurd rfl h
  | cons a t => rfl

/-- C6. `transitionTo` either succeeds — appending exactly one
`{state, timestamp, reason}` entry and setting `current_state` — or fails,
returning a structured failure (an error message is always present) with
no field mutated; history grows by 1 on success and 0 on failure, and its
first entry is the Idle entry after construction or reset (appends preserve
it). -/
theorem transitionTo_all_or_nothing (s : ExecutionState) (t : WorkflowGenerationState)
    (r : Option String) (now : String) (d : Bool) (now0 : String) :
    ((transitionTo s t r now).1.success = true →
      (transitionTo s t r now).2 =
        { s with
           current_state := t
           state_history := s.state_history
             ++ [{ state := t, timestamp := now, reason := some (jsOr r "State transition") }] }) ∧
    ((transitionTo s t r now).1.success = false →
      (transitionTo s t r now).2 = s ∧ ((transitionTo s t r now).1.error).isSome = true) ∧
    ((transitionTo s t r now).2.state_history.length
       = s.state_history.length + (if (transitionTo s t r now).1.success = true then 1 else 0)) ∧
    (s.state_history ≠ [] →
      (transitionTo s t r now).2.state_history.head? = s.state_history.head?) ∧
    (initializeState d now0).state_history.head?
       = some { state := STATE_0_IDLE, timestamp := now0, reason := some "Initialized" } ∧
    (reset s now0).state_history.head?
       = some { state := STATE_0_IDLE, timestamp := now0, reason := some "Initialized" } := by
  by_cases h : t ∈ ALLOWED_TRANSITIONS s.current_state
  · rw [transitionTo_of_mem s t r now h]
    refine ⟨fun _ => rfl, fun hf => by simp at hf, by simp, fun hne => ?_, rfl, rfl⟩
    exact head_append_singleton s.state_history _ hne
  · obtain ⟨h1, h2, h3⟩ := transitionTo_of_not_mem s t r now h
    refine ⟨fun ht => ?_, fun _ => ⟨h3, h2⟩, ?_, fun _ => ?_, rfl, rfl⟩
    · rw [h1] at ht; exact absurd ht (by simp)
    · rw [h1, h3]; simp
    · rw [h3]

/-- C6 witness: a successful transition from a freshly constructed state
appends the entry and keeps the Idle first entry; the fresh history is
non-empty. -/
theorem transitionTo_all_or_nothing_witness :
    (transitionTo (initializeState false "t0") STATE_1_USER_PROMPT_RECEIVED none "t1").1.success
        = true ∧
    (transitionTo (initializeState false "t0") STATE_1_USER_PROMPT_RECEIVED none "t1").2 =
      { initializeState false "t0" with
         current_state := STATE_1_USER_PROMPT_RECEIVED
         state_history := (initializeState false "t0").state_history
           ++ [{ state := STATE_1_USER_PROMPT_RECEIVED, timestamp := "t1",
                 reason := some (jsOr none "State transition") }] } ∧
    (transitionTo (initializeState false "t0") STATE_1_USER_PROMPT_RECEIVED none "t1").2.state_history.head?
      = (initializeState false "t0").state_history.head? := by
  have h := transitionTo_all_or_nothing (initializeState false "t0")
    STATE_1_USER_PROMPT_RECEIVED none "t1" false "t2"
  exact ⟨rfl, h.1 rfl, h.2.2.2.1 (by decide)⟩

/-- C8. `markWorkflowReady` fails (state untouched) with a
validation-error-count message when `validation_errors` is non-empty; fails
(state untouched) with the distinct blueprint message when the errors are
empty but `workflow_blueprint.nodes` is absent or empty; and when both
guards pass in WorkflowValidation it transitions to the terminal
WorkflowReady. -/
theorem markWorkflowReady_guards (s : ExecutionState) (now : String) :
    (s.validation_errors ≠ [] →
      markWorkflowReady s now =
        ({ success := false
           error := some ("Cannot mark workflow as ready: "
             ++ toString s.validation_errors.length ++ " validation errors remain") }, s)) ∧
    (s.validation_errors = [] → s.workflow_blueprint.nodes.getD [] = [] →
      markWorkflowReady s now =
        ({ success := false
           error := some "Cannot mark workflow as ready: No workflow blueprint" }, s)) ∧
    (s.validation_errors = [] → s.workflow_blueprint.nodes.getD [] ≠ [] →
      s.current_state = STATE_6_WORKFLOW_VALIDATION →
      (markWorkflowReady s now).1.success = true ∧
      (markWorkflowReady s now).2.current_state = STATE_7_WORKFLOW_READY) := by
  refine ⟨fun h1 => ?_, fun h1 h2 => ?_, fun h1 h2 h3 => ?_⟩
  · unfold markWorkflowReady
    rw [if_pos (List.length_pos.mpr h1)]
  · unfold markWorkflowReady
    rw [if_neg (by simp [h1]), if_pos h2]
  · unfold markWorkflowReady
    rw [if_neg (by simp [h1]), if_neg h2,
      transitionTo_of_mem s STATE_7_WORKFLOW_READY _ now (by rw [h3]; decide)]
    exact ⟨rfl, rfl⟩

/-- C8 witness: concrete instances exercising the two distinct failure
messages (which differ) and the successful terminal transition. -/
theorem markWorkflowReady_guards_witness :
    (markWorkflowReady { initializeState false "t0" with
        current_state := STATE_6_WORKFLOW_VALIDATION
        workflow_blueprint := { nodes := some ["n1"], edges := none, structure_ := none }
        validation_errors := [{ type := "e", message := "m", nodeId := none }] } "t1"
      = ({ success := false
           error := some "Cannot mark workflow as ready: 1 validation errors remain" },
         { initializeState false "t0" with
            current_state := STATE_6_WORKFLOW_VALIDATION
            workflow_blueprint := { nodes := some ["n1"], edges := none, structure_ := none }
            validation_errors := [{ type := "e", message := "m", nodeId := none }] })) ∧
    (markWorkflowReady { initializeState false "t0" with
        current_state := STATE_6_WORKFLOW_VALIDATION } "t1"
      = ({ success := false
           error := some "Cannot mark workflow as ready: No workflow blueprint" },
         { initializeState false "t0" with
            current_state := STATE_6_WORKFLOW_VALIDATION })) ∧
    ((markWorkflowReady { initializeState false "t0" with
        current_state := STATE_6_WORKFLOW_VALIDATION
        workflow_blueprint := { nodes := some ["n1"], edges := none, structure_ := none } } "t1").1.success
      = true) ∧
    ((markWorkflowReady { initializeState false "t0" with
        current_state := STATE_6_WORKFLOW_VALIDATION
        workflow_blueprint := { nodes := some ["n1"], edges := none, structure_ := none } } "t1").2.current_state
      = STATE_7_WORKFLOW_READY) ∧
    ("Cannot mark workflow as ready: 1 validation errors remain"
      ≠ "Cannot mark workflow as ready: No workflow blueprint") := by
  refine ⟨?_, ?_, ?_, ?_, by decide⟩
  · exact (markWorkflowReady_guards _ "t1").1 (by decide)
  · exact (markWorkflowReady_guards _ "t1").2.1 (by decide) (by decide)
  · exact ((markWorkflowReady_guards _ "t1").2.2 (by decide) (by decide) (by decide)).1
  · exact ((markWorkflowReady_guards _ "t1").2.2 (by decide) (by decide) (by decide)).2

/-- A failed `transitionTo` returns the state it was given. -/
theorem transitionTo_snd_of_fail (s : ExecutionState) (t : WorkflowGenerationState)
    (r : Option String) (now : String) (h : (transitionTo s t r now).1.success = false) :
    (transitionTo s t r now).2 = s := by
  by_cases hm : t ∈ ALLOWED_TRANSITIONS s.current_state
  · rw [transitionTo_of_mem s t r now hm] at h
    simp at h
  · exact (transitionTo_of_not_mem s t r now hm).2.2

/-- C2 counterexample. `retryBuilding` from a fresh Idle state returns a
failure, yet the returned state differs from the input: `retry_count` was
already incremented (and the blueprint/errors cleared) before the rejected
transition. -/
theorem retryBuilding_fails_but_mutates :
    (retryBuilding (initializeState false "t0") "t1").1.success = false ∧
    (retryBuilding (initializeState false "t0") "t1").2 ≠ initializeState false "t0" ∧
    (retryBuilding (initializeState false "t0") "t1").2.retry_count = 1 ∧
    (initializeState false "t0").retry_count = 0 := by
  refine ⟨rfl, fun h => ?_, rfl, rfl⟩
  exact absurd (congrArg ExecutionState.retry_count h : (1 : Nat) = 0) (by decide)

/-- C2 amended. `transitionTo`, `startBuilding`, `markWorkflowReady` and
`confirmUnderstanding` mutate nothing when they return a failure; but
`retryBuilding` with retry budget left always increments `retry_count` and
clears `workflow_blueprint`/`validation_errors` first, so when the
subsequent transition to WorkflowBuilding is rejected it returns a failure
with those mutations already applied (only the retry-exhaustion failure
leaves the state unchanged); and `handleError` always records `last_error`,
even when its transition is rejected. -/
theorem failure_mutation_by_operation (s : ExecutionState) (t : WorkflowGenerationState)
    (r : Option String) (now : String) (msg u : String) :
    ((startBuilding s now).1.success = false → (startBuilding s now).2 = s) ∧
    ((markWorkflowReady s now).1.success = false → (markWorkflowReady s now).2 = s) ∧
    ((transitionTo s t r now).1.success = false → (transitionTo s t r now).2 = s) ∧
    ((confirmUnderstanding s u now).1.success = false → (confirmUnderstanding s u now).2 = s) ∧
    (s.retry_count < 3 →
      (retryBuilding s now).2.retry_count = s.retry_count + 1 ∧
      (retryBuilding s now).2.workflow_blueprint = Blueprint.empty ∧
      (retryBuilding s now).2.validation_errors = [] ∧
      (STATE_5_WORKFLOW_BUILDING ∉ ALLOWED_TRANSITIONS s.current_state →
        (retryBuilding s now).1.success = false)) ∧
    (3 ≤ s.retry_count →
      (retryBuilding s now).1.success = false ∧ (retryBuilding s now).2 = s) ∧
    (handleError s msg now).last_error = some msg := by
  refine ⟨?_, ?_, transitionTo_snd_of_fail s t r now, ?_, ?_, ?_, ?_⟩
  · unfold startBuilding
    by_cases hc : s.credentials_required.length > 0
    · by_cases hm :
        (s.credentials_required.filter (credMissing s.credentials_provided)).length > 0
      · simp only [hc, if_true, hm]
        simp
      · simp only [hc, if_true, hm, if_false]
        by_cases hf : s.final_understanding = ""
        · simp only [hf, if_pos rfl]
          exact fun _ => rfl
        · simp only [if_neg hf]
          exact transitionTo_snd_of_fail s _ _ now
    · simp only [hc, if_false]
      by_cases hf : s.final_understanding = ""
      · simp only [hf, if_pos rfl]
        exact fun _ => rfl
      · simp only [if_neg hf]
        exact transitionTo_snd_of_fail s _ _ now
  · unfold markWorkflowReady
    split_ifs with h1 h2
    · exact fun _ => rfl
    · exact fun _ => rfl
    · exact transitionTo_snd_of_fail s _ _ now
  · unfold confirmUnderstanding
    split_ifs with h
    · exact fun _ => rfl
    · push_neg at h
      have hcs : ({ s with final_understanding := u } : ExecutionState).current_state
          = STATE_2_CLARIFICATION_ACTIVE := h
      rw [transitionTo_of_mem _ _ _ _ (by rw [hcs]; decide)]
      intro hf
      simp at hf
  · intro h
    unfold retryBuilding
    rw [if_neg (by omega)]
    by_cases hmem : STATE_5_WORKFLOW_BUILDING ∈ ALLOWED_TRANSITIONS s.current_state
    · rw [transitionTo_of_mem
        (clearValidationErrors
          { s with retry_count := s.retry_count + 1, workflow_blueprint := Blueprint.empty })
        STATE_5_WORKFLOW_BUILDING
        (some ("Retry " ++ toString (s.retry_count + 1) ++ "/3")) now hmem]
      exact ⟨rfl, rfl, rfl, fun hn => absurd hmem hn⟩
    · obtain ⟨f1, _, f3⟩ := transitionTo_of_not_mem
        (clearValidationErrors
          { s with retry_count := s.retry_count + 1, workflow_blueprint := Blueprint.empty })
        STATE_5_WORKFLOW_BUILDING
        (some ("Retry " ++ toString (s.retry_count + 1) ++ "/3")) now hmem
      rw [f3]
      exact ⟨rfl, rfl, rfl, fun _ => f1⟩
  · intro h
    unfold retryBuilding
    rw [if_pos (by omega)]
    exact ⟨rfl, rfl⟩
  · unfold handleError
    by_cases hmem : STATE_ERROR_HANDLING ∈
        ALLOWED_TRANSITIONS ({ s with last_error := some msg } : ExecutionState).current_state
    · rw [transitionTo_of_mem _ _ _ _ hmem]
    · rw [(transitionTo_of_not_mem _ _ _ _ hmem).2.2]

/-- C2 amended witness: on the fresh Idle state the atomic operations leave
the state untouched on failure, while `retryBuilding` (budget left, Idle
does not admit WorkflowBuilding) fails yet increments `retry_count`, and
`handleError` records the error despite its rejected transition. -/
theorem failure_mutation_by_operation_witness :
    ((startBuilding (initializeState false "t0") "t1").2 = initializeState false "t0") ∧
    ((retryBuilding (initializeState false "t0") "t1").2.retry_count = 0 + 1) ∧
    ((retryBuilding (initializeState false "t0") "t1").1.success = false) ∧
    ((handleError (initializeState false "t0") "boom" "t1").last_error = some "boom") := by
  have h := failure_mutation_by_operation (initializeState false "t0")
    STATE_1_USER_PROMPT_RECEIVED none "t1" "boom" "u"
  have h5 := h.2.2.2.2.1 (by decide)
  exact ⟨h.1 (by decide), h5.1, h5.2.2.2 (by decide), h.2.2.2.2.2.2⟩

/-- A fresh state moved to WorkflowValidation (retry_count 0), the start of
the consecutive-retry scenario. -/
def validationStart : ExecutionState :=
  { initializeState false "t0" with current_state := STATE_6_WORKFLOW_VALIDATION }

/-- C3 counterexample. In the four-consecutive-retry scenario the second
`retryBuilding` call already returns a failure (the machine is then in
WorkflowBuilding, and WorkflowBuilding→WorkflowBuilding is not in the
table), contradicting the claim that attempts 1–3 all succeed. -/
theorem second_consecutive_retry_fails :
    validationStart.retry_count = 0 ∧
    validationStart.current_state = STATE_6_WORKFLOW_VALIDATION ∧
    (retryBuilding validationStart "t1").1.success = true ∧
    (retryBuilding (retryBuilding validationStart "t1").2 "t2").1.success = false := by
  refine ⟨rfl, rfl, rfl, rfl⟩

/-- C3 amended. From WorkflowValidation with retry_count 0: attempt 1
succeeds (retry_count 1, blueprint and errors cleared, state
WorkflowBuilding); attempts 2 and 3 return invalid-transition failures yet
still set retry_count to 2 and 3 and clear blueprint/errors, leaving the
machine in WorkflowBuilding with no new history entry; attempt 4 returns
the distinguishable retry-budget-exhaustion failure with the state exactly
unchanged. -/
theorem four_consecutive_retries (s : ExecutionState) (t1 t2 t3 t4 : String)
    (h6 : s.current_state = STATE_6_WORKFLOW_VALIDATION) (h0 : s.retry_count = 0) :
    (retryBuilding s t1).1.success = true ∧
    ((retryBuilding s t1).2.current_state = STATE_5_WORKFLOW_BUILDING ∧
     (retryBuilding s t1).2.retry_count = 1 ∧
     (retryBuilding s t1).2.workflow_blueprint = Blueprint.empty ∧
     (retryBuilding s t1).2.validation_errors = []) ∧
    (retryBuilding (retryBuilding s t1).2 t2).1.success = false ∧
    ((retryBuilding (retryBuilding s t1).2 t2).2.current_state = STATE_5_WORKFLOW_BUILDING ∧
     (retryBuilding (retryBuilding s t1).2 t2).2.retry_count = 2 ∧
     (retryBuilding (retryBuilding s t1).2 t2).2.state_history
       = (retryBuilding s t1).2.state_history) ∧
    (retryBuilding (retryBuilding (retryBuilding s t1).2 t2).2 t3).1.success = false ∧
    ((retryBuilding (retryBuilding (retryBuilding s t1).2 t2).2 t3).2.retry_count = 3 ∧
     (retryBuilding (retryBuilding (retryBuilding s t1).2 t2).2 t3).2.current_state
       = STATE_5_WORKFLOW_BUILDING) ∧
    (retryBuilding (retryBuilding (retryBuilding (retryBuilding s t1).2 t2).2 t3).2 t4).1
       = { success := false,
           error := some "Maximum retry count (3) reached. Moving to error handling." } ∧
    (retryBuilding (retryBuilding (retryBuilding (retryBuilding s t1).2 t2).2 t3).2 t4).2
       = (retryBuilding (retryBuilding (retryBuilding s t1).2 t2).2 t3).2 := by
  obtain ⟨cs, up, cq, ca, fu, cr, cp, wb, ve, rc, le, dm, sh⟩ := s
  simp only [ExecutionState.current_state] at h6
  simp only [ExecutionState.retry_count] at h0
  subst h6
  subst h0
  simp [retryBuilding, transitionTo, canTransitionTo, clearValidationErrors,
    ALLOWED_TRANSITIONS, jsOr]

/-- C3 amended witness: the scenario run from the concrete fresh
WorkflowValidation state. -/
theorem four_consecutive_retries_witness :
    (retryBuilding validationStart "a").1.success = true ∧
    (retryBuilding (retryBuilding validationStart "a").2 "b").1.success = false ∧
    (retryBuilding (retryBuilding (retryBuilding validationStart "a").2 "b").2 "c").2.retry_count
      = 3 := by
  have h := four_consecutive_retries validationStart "a" "b" "c" "d" rfl rfl
  exact ⟨h.1, h.2.2.1, h.2.2.2.2.2.1.1⟩

/-- Transition set asserted by the spec: the linear pipeline plus exactly
the self-loop, the credentials shortcut and the mid-build backward edge,
with ErrorHandling never a listed successor.  Written from the words of the spec, for comparison against `ALLOWED_TRANSITIONS`. -/
def specClaimedSuccessors : WorkflowGenerationState → List WorkflowGenerationState
  | STATE_0_IDLE => [STATE_1_USER_PROMPT_RECEIVED]
  | STATE_1_USER_PROMPT_RECEIVED => [STATE_2_CLARIFICATION_ACTIVE]
  | STATE_2_CLARIFICATION_ACTIVE =>
      [STATE_3_UNDERSTANDING_CONFIRMED, STATE_2_CLARIFICATION_ACTIVE]
  | STATE_3_UNDERSTANDING_CONFIRMED =>
      [STATE_4_CREDENTIAL_COLLECTION, STATE_5_WORKFLOW_BUILDING]
  | STATE_4_CREDENTIAL_COLLECTION => [STATE_5_WORKFLOW_BUILDING]
  | STATE_5_WORKFLOW_BUILDING =>
      [STATE_6_WORKFLOW_VALIDATION, STATE_4_CREDENTIAL_COLLECTION]
  | STATE_6_WORKFLOW_VALIDATION => [STATE_7_WORKFLOW_READY]
  | STATE_7_WORKFLOW_READY => []
  | STATE_ERROR_HANDLING => [STATE_2_CLARIFICATION_ACTIVE, STATE_0_IDLE]

/-- The successor sets actually in the source: the set of the spec plus the
backward edge UnderstandingConfirmed→ClarificationActive, the retry edge
WorkflowValidation→WorkflowBuilding, and the fatal-error edge
WorkflowValidation→ErrorHandling. -/
def correctedSuccessors : WorkflowGenerationState → List WorkflowGenerationState
  | STATE_0_IDLE => [STATE_1_USER_PROMPT_RECEIVED]
  | STATE_1_USER_PROMPT_RECEIVED => [STATE_2_CLARIFICATION_ACTIVE]
  | STATE_2_CLARIFICATION_ACTIVE =>
      [STATE_3_UNDERSTANDING_CONFIRMED, STATE_2_CLARIFICATION_ACTIVE]
  | STATE_3_UNDERSTANDING_CONFIRMED =>
      [STATE_4_CREDENTIAL_COLLECTION, STATE_2_CLARIFICATION_ACTIVE, STATE_5_WORKFLOW_BUILDING]
  | STATE_4_CREDENTIAL_COLLECTION => [STATE_5_WORKFLOW_BUILDING]
  | STATE_5_WORKFLOW_BUILDING =>
      [STATE_6_WORKFLOW_VALIDATION, STATE_4_CREDENTIAL_COLLECTION]
  | STATE_6_WORKFLOW_VALIDATION =>
      [STATE_7_WORKFLOW_READY, STATE_5_WORKFLOW_BUILDING, STATE_ERROR_HANDLING]
  | STATE_7_WORKFLOW_READY => []
  | STATE_ERROR_HANDLING => [STATE_2_CLARIFICATION_ACTIVE, STATE_0_IDLE]

/-- C4 counterexample. `canTransitionTo(ErrorHandling)` from
WorkflowValidation is valid, although the claimed edge set lists
ErrorHandling as the successor of no state (and omits the retry edge
Validation→Building, also valid in the code). -/
theorem errorHandling_is_a_listed_successor :
    (canTransitionTo { initializeState false "t0" with
        current_state := STATE_6_WORKFLOW_VALIDATION } STATE_ERROR_HANDLING).valid = true ∧
    STATE_ERROR_HANDLING ∉ specClaimedSuccessors STATE_6_WORKFLOW_VALIDATION ∧
    (canTransitionTo { initializeState false "t0" with
        current_state := STATE_6_WORKFLOW_VALIDATION } STATE_5_WORKFLOW_BUILDING).valid = true ∧
    STATE_5_WORKFLOW_BUILDING ∉ specClaimedSuccessors STATE_6_WORKFLOW_VALIDATION := by
  exact ⟨rfl, by decide, rfl, by decide⟩

/-- C4 amended. Over all 9×9 pairs, `canTransitionTo(T)` from S is valid
iff T is in the corrected successor set of S: the claimed edges plus
UnderstandingConfirmed→ClarificationActive, WorkflowValidation→
WorkflowBuilding and WorkflowValidation→ErrorHandling (so ErrorHandling is
the listed successor of exactly WorkflowValidation, and WorkflowReady still
has none). -/
theorem canTransitionTo_iff_table (s : ExecutionState) (t : WorkflowGenerationState) :
    (canTransitionTo s t).valid = true ↔ t ∈ correctedSuccessors s.current_state := by
  rw [canTransitionTo_valid_eq]
  have h : ∀ (a b : WorkflowGenerationState),
      (decide (b ∈ ALLOWED_TRANSITIONS a) = true) ↔ b ∈ correctedSuccessors a := by
    intro a b
    cases a <;> cases b <;> decide
  exact h s.current_state t

/-- The concrete missing-credential scenario of the spec: required google and
slack, only google provided. -/
def googleSlackExample : ExecutionState :=
  { initializeState false "t0" with
    current_state := STATE_3_UNDERSTANDING_CONFIRMED
    final_understanding := "ok"
    credentials_required := ["google", "slack"]
    credentials_provided := [("google", "token")] }

/-- The same scenario with the required name upper-cased. -/
def upperGoogleExample : ExecutionState :=
  { googleSlackExample with credentials_required := ["GOOGLE"] }

/-- C5 counterexample. "GOOGLE" is required and is not present in
`credentials_provided` (no such key), yet `startBuilding` succeeds: the
source also accepts a truthy value under the lower-cased name. -/
theorem startBuilding_accepts_lowercased_key :
    upperGoogleExample.credentials_provided.lookup "GOOGLE" = none ∧
    "GOOGLE" ∈ upperGoogleExample.credentials_required ∧
    (startBuilding upperGoogleExample "t1").1.success = true ∧
    (startBuilding upperGoogleExample "t1").2.current_state = STATE_5_WORKFLOW_BUILDING := by
  exact ⟨rfl, by decide, rfl, rfl⟩

/-- C5 amended. `startBuilding` fails, listing exactly the missing names,
whenever some required name has neither a non-empty provided value under
itself nor under its lower-cased form (the `credMissing` test of the source);
the google/slack instance fails naming exactly slack; with no missing name
it fails on empty `final_understanding`; and with both guards passing it
performs the table-checked transition to WorkflowBuilding (which succeeds
when the current state admits it). -/
theorem startBuilding_guard_behaviour (s : ExecutionState) (now : String) :
    (s.credentials_required.filter (credMissing s.credentials_provided) ≠ [] →
      startBuilding s now =
        ({ success := false
           error := some ("Cannot build workflow: Missing required credentials: "
             ++ String.intercalate ", "
               (s.credentials_required.filter (credMissing s.credentials_provided))) }, s)) ∧
    (s.credentials_required.filter (credMissing s.credentials_provided) = [] →
      s.final_understanding = "" →
      startBuilding s now =
        ({ success := false
           error := some "Cannot build workflow: Understanding not confirmed" }, s)) ∧
    (s.credentials_required.filter (credMissing s.credentials_provided) = [] →
      s.final_understanding ≠ "" →
      startBuilding s now
        = transitionTo s STATE_5_WORKFLOW_BUILDING (some "Workflow building started") now) ∧
    (startBuilding googleSlackExample "t1").1
      = { success := false
          error := some "Cannot build workflow: Missing required credentials: slack" } ∧
    (startBuilding googleSlackExample "t1").2 = googleSlackExample := by
  refine ⟨fun hmiss => ?_, fun hmiss hfu => ?_, fun hmiss hfu => ?_, rfl, rfl⟩
  · have hreq : s.credentials_required.length > 0 := by
      rcases hc : s.credentials_required with _ | ⟨c, rest⟩
      · rw [hc] at hmiss
        simp at hmiss
      · simp
    have hm : (s.credentials_required.filter (credMissing s.credentials_provided)).length > 0 :=
      List.length_pos.mpr hmiss
    unfold startBuilding
    simp only [hreq, if_true, hm]
  · unfold startBuilding
    by_cases hreq : s.credentials_required.length > 0
    · simp [hreq, hmiss, hfu]
    · simp [hreq, hfu]
  · unfold startBuilding
    by_cases hreq : s.credentials_required.length > 0
    · simp [hreq, hmiss, hfu]
    · simp [hreq, hfu]

/-- C5 amended witness: the three guard branches exercised at concrete
states (google/slack missing-credential failure; empty-understanding
failure; both guards passing with a successful transition from
UnderstandingConfirmed). -/
theorem startBuilding_guard_behaviour_witness :
    startBuilding googleSlackExample "t1"
      = ({ success := false
           error := some "Cannot build workflow: Missing required credentials: slack" },
         googleSlackExample) ∧
    startBuilding { googleSlackExample with credentials_provided :=
        [("google", "token"), ("slack", "token")], final_understanding := "" } "t1"
      = ({ success := false
           error := some "Cannot build workflow: Understanding not confirmed" },
         { googleSlackExample with credentials_provided :=
            [("google", "token"), ("slack", "token")], final_understanding := "" }) ∧
    startBuilding { googleSlackExample with credentials_provided :=
        [("google", "token"), ("slack", "token")] } "t1"
      = transitionTo { googleSlackExample with credentials_provided :=
          [("google", "token"), ("slack", "token")] }
          STATE_5_WORKFLOW_BUILDING (some "Workflow building started") "t1" := by
  refine ⟨?_, ?_, ?_⟩
  · exact (startBuilding_guard_behaviour googleSlackExample "t1").1 (by decide)
  · exact (startBuilding_guard_behaviour _ "t1").2.1 (by decide) (by decide)
  · exact (startBuilding_guard_behaviour _ "t1").2.2.1 (by decide) (by decide)

end WorkflowGen
